import Mathlib

/-!
Verification of the load-testing scenario scripts in
`integration-tests/performance/concurrent-users-locust.py` and
`integration-tests/performance/content-streaming-locust.py`.

The scripts define weighted request-emitting tasks over a load-generation
framework.  We embed the per-task logic (status-code checks, failure
messages, session state mutation, request construction) directly from the
source, and model the framework-owned pieces (seeded PRNG, weighted task
selection, `between` wait times) from the specification's description of
them.
-/

/-- HTTP response as the tasks observe it: a status code plus the JSON
body fields the scripts read (`token` for login, `id` for publish). -/
structure Response where
  status : Nat
  /-- the `id` field of the JSON body, when present (`response.json().get("id")`) -/
  id : Option Nat := none
  deriving Repr, DecidableEq

/-- Login response body: status code plus the optional `token` field of
the JSON body (`response.json().get("token", "test-token")`). -/
structure LoginResponse where
  status : Nat
  token : Option String := none
  deriving Repr, DecidableEq

/-- The `login` method of `ContentViewerUser`, `CreatorUser` and `SubscriberUser`
(the three methods share this token logic verbatim): return the body's
`token` (defaulting to `"test-token"`) on a 200, and the placeholder
`"test-token"` on any other status. -/
def login (r : LoginResponse) : String :=
  if r.status == 200 then r.token.getD "test-token"
  else "test-token"

/-- Per-user session state of `CreatorUser.on_start` (the other classes
keep only the token): the auth token and the list of created content ids. -/
structure Session where
  auth_token : String
  created_content_ids : List Nat
  deriving Repr, DecidableEq

/-- The tasks of `ContentViewerUser`, `CreatorUser` and `SubscriberUser`
in `concurrent-users-locust.py`, in source order. -/
inductive UserTask
  | browse_content | view_content | stream_content | like_content | search_content
  | publish_content | update_content | view_analytics | list_content
  | view_subscriptions | access_premium_content | manage_payment_methods
  | check_subscription_status
  deriving Repr, DecidableEq, BEq

/-- The tasks of `ContentStreamingUser` in `content-streaming-locust.py`. -/
inductive CSTask
  | stream_content | get_content_metadata
  deriving Repr, DecidableEq, BEq

/-- The random draws a task performs before issuing its request:
`page = random.randint(1, 10)`, `limit = random.choice([10, 20, 50])`,
`content_id = random.choice(self.content_ids)` (or `randint(1, 100)`),
`query = random.choice(search_terms)`, and `idx` standing for the
`random.choice` position into `created_content_ids`. -/
structure Params where
  page : Nat := 1
  limit : Nat := 10
  content_id : Nat := 1
  idx : Nat := 0
  query : String := "tutorial"
  deriving Repr, DecidableEq

/-- Outcome recorded for a response: `response.success()` or
`response.failure(msg)`. -/
inductive Outcome
  | success
  | failure (msg : String)
  deriving Repr, DecidableEq

/-- Whether the recorded outcome is a success. -/
def Outcome.isSuccess : Outcome → Bool
  | .success => true
  | .failure _ => false

/-- The status-code check and recorded outcome of each task of
`concurrent-users-locust.py`, transcribed branch by branch from the
source (`if response.status_code != 200: response.failure(...) else
response.success()`, etc.). -/
def recordOutcome (t : UserTask) (p : Params) (s : Nat) : Outcome :=
  match t with
  | .browse_content =>
      if s ≠ 200 then .failure ("Browse failed: " ++ toString s) else .success
  | .view_content =>
      if s ≠ 200 then
        .failure ("View content " ++ toString p.content_id ++ " failed: " ++ toString s)
      else .success
  | .stream_content =>
      if s ≠ 200 then
        .failure ("Stream content " ++ toString p.content_id ++ " failed: " ++ toString s)
      else .success
  | .like_content =>
      if s ∉ [200, 201] then .failure ("Like content failed: " ++ toString s) else .success
  | .search_content =>
      if s ≠ 200 then .failure ("Search failed: " ++ toString s) else .success
  | .publish_content =>
      if s == 201 then .success else .failure ("Publish failed: " ++ toString s)
  | .update_content =>
      if s ≠ 200 then .failure ("Update failed: " ++ toString s) else .success
  | .view_analytics =>
      if s ≠ 200 then .failure ("Analytics fetch failed: " ++ toString s) else .success
  | .list_content =>
      if s ≠ 200 then .failure ("List content failed: " ++ toString s) else .success
  | .view_subscriptions =>
      if s ≠ 200 then .failure ("View subscriptions failed: " ++ toString s) else .success
  | .access_premium_content =>
      if s ∉ [200, 403] then
        .failure ("Premium content access failed: " ++ toString s)
      else .success
  | .manage_payment_methods =>
      if s ≠ 200 then .failure ("Get payment methods failed: " ++ toString s) else .success
  | .check_subscription_status =>
      if s ≠ 200 then .failure ("Check subscription status failed: " ++ toString s) else .success

/-- The status-code check of each `content-streaming-locust.py` task:
`response.failure(...)` on a non-200 status; on a 200 the
`catch_response` context exits without an explicit call and the request
is reported as a success. -/
def csRecordOutcome (t : CSTask) (p : Params) (s : Nat) : Outcome :=
  match t with
  | .stream_content =>
      if s ≠ 200 then
        .failure ("Failed to stream content " ++ toString p.content_id ++ ": " ++ toString s)
      else .success
  | .get_content_metadata =>
      if s ≠ 200 then
        .failure ("Failed to get metadata for " ++ toString p.content_id ++ ": " ++ toString s)
      else .success

/-- The allow-list of status codes each task accepts, read off the same
source branches: the literal `[200, 201]` of `like_content`, the literal
`[200, 403]` of `access_premium_content`, `[201]` for the `== 201` check
of `publish_content`, and `[200]` for every `!= 200` check. -/
def allowList (t : UserTask) : List Nat :=
  match t with
  | .like_content => [200, 201]
  | .access_premium_content => [200, 403]
  | .publish_content => [201]
  | _ => [200]

/-- Allow-list of the streaming-script tasks: both check `!= 200`. -/
def csAllowList (_ : CSTask) : List Nat := [200]

/-- An HTTP request as the tasks build one: method, path, headers. -/
structure Request where
  method : String
  path : String
  headers : List (String × String)
  deriving Repr, DecidableEq

/-- The requests a task issues, built from the session and its random
draws exactly as in the source.  Every task issues one request with the
header dict `{"Authorization": f"Bearer {self.auth_token}"}`, except that
`update_content` and `view_analytics` are wrapped in
`if self.created_content_ids:` and issue nothing when that list is empty
(their target id is `random.choice(self.created_content_ids)`, modelled
by the draw `p.idx` indexing into the list). -/
def taskRequests (sess : Session) (t : UserTask) (p : Params) : List Request :=
  let auth : List (String × String) := [("Authorization", "Bearer " ++ sess.auth_token)]
  match t with
  | .browse_content =>
      [⟨"GET", "/api/content/browse?page=" ++ toString p.page ++ "&limit=" ++ toString p.limit,
        auth⟩]
  | .view_content => [⟨"GET", "/api/content/" ++ toString p.content_id, auth⟩]
  | .stream_content => [⟨"GET", "/api/content/" ++ toString p.content_id ++ "/stream", auth⟩]
  | .like_content => [⟨"POST", "/api/content/" ++ toString p.content_id ++ "/like", auth⟩]
  | .search_content => [⟨"GET", "/api/content/search?q=" ++ p.query, auth⟩]
  | .publish_content => [⟨"POST", "/api/content/create", auth⟩]
  | .update_content =>
      if sess.created_content_ids.isEmpty then []
      else
        [⟨"PUT",
          "/api/content/" ++
            toString (sess.created_content_ids.getD (p.idx % sess.created_content_ids.length) 0),
          auth⟩]
  | .view_analytics =>
      if sess.created_content_ids.isEmpty then []
      else
        [⟨"GET",
          "/api/content/" ++
            toString (sess.created_content_ids.getD (p.idx % sess.created_content_ids.length) 0) ++
            "/analytics",
          auth⟩]
  | .list_content => [⟨"GET", "/api/creator/content", auth⟩]
  | .view_subscriptions => [⟨"GET", "/api/subscriptions", auth⟩]
  | .access_premium_content =>
      [⟨"GET", "/api/content/" ++ toString p.content_id ++ "/premium", auth⟩]
  | .manage_payment_methods => [⟨"GET", "/api/payments/methods", auth⟩]
  | .check_subscription_status => [⟨"GET", "/api/subscriptions/status", auth⟩]

/-- The client headers `ContentStreamingUser.on_start` installs:
`{'Authorization': 'Bearer test-token', 'Content-Type': 'application/json'}`. -/
def csOnStartHeaders : List (String × String) :=
  [("Authorization", "Bearer test-token"), ("Content-Type", "application/json")]

/-- The single request each `ContentStreamingUser` task issues; the
client attaches the headers installed at `on_start`. -/
def csRequest (t : CSTask) (p : Params) : Request :=
  match t with
  | .stream_content =>
      ⟨"GET", "/api/delivery/" ++ toString p.content_id ++ "/stream", csOnStartHeaders⟩
  | .get_content_metadata =>
      ⟨"GET", "/api/delivery/" ++ toString p.content_id ++ "/metadata", csOnStartHeaders⟩

/-- Session state after a task sees a response.  Only
`publish_content` mutates state: on a 201 it reads
`response.json().get("id")` and appends it under `if content_id:`, i.e.
only when the id is present and truthy (nonzero). -/
def taskStateAfter (sess : Session) (t : UserTask) (r : Response) : Session :=
  match t with
  | .publish_content =>
      if r.status == 201 then
        match r.id with
        | some i =>
            if i ≠ 0 then
              { sess with created_content_ids := sess.created_content_ids ++ [i] }
            else sess
        | none => sess
      else sess
  | _ => sess

/-- One scheduled task execution in a session: the chosen task, its
random draws, and the response the server gave. -/
structure Event where
  task : UserTask
  params : Params
  resp : Response
  deriving Repr, DecidableEq

/-- Whether an event is a successful `publish_content` that appends an
id to `created_content_ids` (status 201 with a present, truthy id). -/
def appendsIdB (e : Event) : Bool :=
  e.task == UserTask.publish_content && e.resp.status == 201 &&
    (match e.resp.id with
     | some i => i != 0
     | none => false)

/-- Session state after running a list of events in order. -/
def runState (sess : Session) : List Event → Session
  | [] => sess
  | e :: es => runState (taskStateAfter sess e.task e.resp) es

/-- Modelled from the spec: the framework-owned seeded PRNG ("pick a
weighted task ... with a fixed random seed").  A linear congruential
step on the seed; the scripts themselves never implement randomness. -/
def rngNext (g : Nat) : Nat := (g * 1103515245 + 12345) % 2147483648

/-- Declared task weights of the `ContentViewerUser` profile
(`@task(5)` browse, `@task(4)` view, `@task(3)` stream, `@task(2)` like,
`@task(1)` search); tasks of other profiles have weight 0 here. -/
def viewerWeight : UserTask → Nat
  | .browse_content => 5
  | .view_content => 4
  | .stream_content => 3
  | .like_content => 2
  | .search_content => 1
  | _ => 0

/-- Declared task weights of the `CreatorUser` profile. -/
def creatorWeight : UserTask → Nat
  | .publish_content => 3
  | .update_content => 2
  | .view_analytics => 2
  | .list_content => 1
  | _ => 0

/-- Declared task weights of the `SubscriberUser` profile. -/
def subscriberWeight : UserTask → Nat
  | .view_subscriptions => 4
  | .access_premium_content => 3
  | .manage_payment_methods => 2
  | .check_subscription_status => 1
  | _ => 0

/-- Declared task weights of `ContentStreamingUser` (`@task(3)` stream,
`@task(1)` metadata). -/
def csWeight : CSTask → Nat
  | .stream_content => 3
  | .get_content_metadata => 1

/-- Modelled from the spec: the framework's weighted task selection for
the Viewer profile ("pick tasks with probability proportional to weight,
independently each iteration, with replacement"): the PRNG value reduced
modulo the total weight 15 indexes the cumulative weights 5,4,3,2,1. -/
def selectViewer (g : Nat) : UserTask :=
  let r := g % 15
  if r < 5 then .browse_content
  else if r < 9 then .view_content
  else if r < 12 then .stream_content
  else if r < 14 then .like_content
  else .search_content

/-- Modelled from the spec: weighted selection for the Creator profile
(cumulative weights 3,2,2,1 over total 8). -/
def selectCreator (g : Nat) : UserTask :=
  let r := g % 8
  if r < 3 then .publish_content
  else if r < 5 then .update_content
  else if r < 7 then .view_analytics
  else .list_content

/-- Modelled from the spec: weighted selection for the Subscriber
profile (cumulative weights 4,3,2,1 over total 10). -/
def selectSubscriber (g : Nat) : UserTask :=
  let r := g % 10
  if r < 4 then .view_subscriptions
  else if r < 7 then .access_premium_content
  else if r < 9 then .manage_payment_methods
  else .check_subscription_status

/-- Modelled from the spec: weighted selection for the streaming profile
(cumulative weights 3,1 over total 4). -/
def selectCS (g : Nat) : CSTask :=
  if g % 4 < 3 then .stream_content else .get_content_metadata

/-- Modelled from the spec: a task's random draws derived from the
current PRNG state (the scripts draw via `random.randint` /
`random.choice`, owned by the Python runtime). -/
def drawParams (g : Nat) : Params :=
  { page := 1 + g % 10
    limit := [10, 20, 50].getD (g % 3) 10
    content_id := 1 + g % 100
    idx := g
    query := ["tutorial", "music", "video", "live", "exclusive", "trending"].getD (g % 6) "tutorial" }

/-- The four `HttpUser` classes declared at the bottom of the scripts:
`ContentViewerLoadTest`, `CreatorLoadTest`, `SubscriberLoadTest` and
`ContentStreamingUser`. -/
inductive Profile
  | viewer | creator | subscriber | streaming
  deriving Repr, DecidableEq

/-- The framework's `between(lo, hi)` wait-time declaration: the pair of
bounds as written in the source. -/
def between (lo hi : ℚ) : ℚ × ℚ := (lo, hi)

/-- The `wait_time` declared by each profile class:
`between(1, 5)`, `between(2, 8)`, `between(1, 4)`, `between(1, 3)`. -/
def wait_time : Profile → ℚ × ℚ
  | .viewer => between 1 5
  | .creator => between 2 8
  | .subscriber => between 1 4
  | .streaming => between 1 3

/-- Modelled from the spec: the framework sleeps "a uniformly random
duration within a profile-specific bound"; with `u` the unit uniform
draw, the duration is the affine stretch of `u` onto `[lo, hi]`. -/
def sleepDuration (lo hi u : ℚ) : ℚ := lo + u * (hi - lo)

/-- Whether `pat` matches a leading segment of `l`. -/
def headMatch : List Char → List Char → Bool
  | [], _ => true
  | _ :: _, [] => false
  | a :: as, b :: bs => a == b && headMatch as bs

/-- Whether `pat` occurs as a contiguous segment of `l`. -/
def subMatch (pat : List Char) : List Char → Bool
  | [] => pat.isEmpty
  | c :: cs => headMatch pat (c :: cs) || subMatch pat cs

/-- Whether string `s` contains `pat` as a contiguous substring. -/
def strContains (s pat : String) : Bool := subMatch pat.data s.data

/-- One iteration of a Viewer session as a relation: from PRNG state `g`
and observed status `st`, the scheduler selects a task (the constructor's
hypothesis pins the selection), the PRNG advances, and the pass/fail bit
is the task's recorded outcome on `st`. -/
inductive ViewerStep : Nat → Nat → Nat → UserTask → Bool → Prop
  | browse {g st : Nat} (h : selectViewer g = UserTask.browse_content) :
      ViewerStep g st (rngNext g) UserTask.browse_content
        ((recordOutcome UserTask.browse_content (drawParams g) st).isSuccess)
  | view {g st : Nat} (h : selectViewer g = UserTask.view_content) :
      ViewerStep g st (rngNext g) UserTask.view_content
        ((recordOutcome UserTask.view_content (drawParams g) st).isSuccess)
  | stream {g st : Nat} (h : selectViewer g = UserTask.stream_content) :
      ViewerStep g st (rngNext g) UserTask.stream_content
        ((recordOutcome UserTask.stream_content (drawParams g) st).isSuccess)
  | like {g st : Nat} (h : selectViewer g = UserTask.like_content) :
      ViewerStep g st (rngNext g) UserTask.like_content
        ((recordOutcome UserTask.like_content (drawParams g) st).isSuccess)
  | search {g st : Nat} (h : selectViewer g = UserTask.search_content) :
      ViewerStep g st (rngNext g) UserTask.search_content
        ((recordOutcome UserTask.search_content (drawParams g) st).isSuccess)

/-- A Viewer session run over a list of response statuses: the task
sequence together with the pass and fail counts. -/
inductive ViewerRun : Nat → List Nat → List UserTask → Nat → Nat → Prop
  | nil {g : Nat} : ViewerRun g [] [] 0 0
  | cons {g st g' : Nat} {t : UserTask} {b : Bool} {sts : List Nat}
      {ts : List UserTask} {p f : Nat}
      (hstep : ViewerStep g st g' t b) (hrest : ViewerRun g' sts ts p f) :
      ViewerRun g (st :: sts) (t :: ts) (if b then p + 1 else p) (if b then f else f + 1)

/-- A single Viewer step is deterministic in the seed and the response. -/
theorem viewerStep_det {g st g₁ g₂ : Nat} {t₁ t₂ : UserTask} {b₁ b₂ : Bool}
    (h₁ : ViewerStep g st g₁ t₁ b₁) (h₂ : ViewerStep g st g₂ t₂ b₂) :
    g₁ = g₂ ∧ t₁ = t₂ ∧ b₁ = b₂ := by
  cases h₁ <;> cases h₂ <;> simp_all

/-- A whole Viewer run is deterministic in the seed and the responses. -/
theorem viewerRun_det {g : Nat} {sts : List Nat} {ts₁ ts₂ : List UserTask}
    {p₁ f₁ p₂ f₂ : Nat}
    (h₁ : ViewerRun g sts ts₁ p₁ f₁) (h₂ : ViewerRun g sts ts₂ p₂ f₂) :
    ts₁ = ts₂ ∧ p₁ = p₂ ∧ f₁ = f₂ := by
  induction h₁ generalizing ts₂ p₂ f₂ with
  | nil => cases h₂; exact ⟨rfl, rfl, rfl⟩
  | cons hstep hrest ih =>
    cases h₂ with
    | cons hstep₂ hrest₂ =>
      obtain ⟨hg, ht, hb⟩ := viewerStep_det hstep hstep₂
      subst hg; subst ht; subst hb
      obtain ⟨hts, hp, hf⟩ := ih hrest₂
      subst hts; subst hp; subst hf
      exact ⟨rfl, rfl, rfl⟩

/-- The function `selectViewer` only ever yields one of the five Viewer tasks. -/
theorem selectViewer_cases (g : Nat) :
    selectViewer g = UserTask.browse_content ∨ selectViewer g = UserTask.view_content ∨
    selectViewer g = UserTask.stream_content ∨ selectViewer g = UserTask.like_content ∨
    selectViewer g = UserTask.search_content := by
  dsimp only [selectViewer]
  split
  · exact Or.inl rfl
  · split
    · exact Or.inr (Or.inl rfl)
    · split
      · exact Or.inr (Or.inr (Or.inl rfl))
      · split
        · exact Or.inr (Or.inr (Or.inr (Or.inl rfl)))
        · exact Or.inr (Or.inr (Or.inr (Or.inr rfl)))

/-- The functional form of one Viewer step satisfies the step relation. -/
theorem viewerStep_fn (g st : Nat) :
    ViewerStep g st (rngNext g) (selectViewer g)
      ((recordOutcome (selectViewer g) (drawParams g) st).isSuccess) := by
  rcases selectViewer_cases g with h | h | h | h | h <;> rw [h]
  · exact ViewerStep.browse h
  · exact ViewerStep.view h
  · exact ViewerStep.stream h
  · exact ViewerStep.like h
  · exact ViewerStep.search h

/-- Executable form of a Viewer run: task sequence, pass count, fail
count, as a function of the seed and the response statuses. -/
def viewerRunFn : Nat → List Nat → List UserTask × Nat × Nat
  | _, [] => ([], 0, 0)
  | g, st :: sts =>
      (selectViewer g :: (viewerRunFn (rngNext g) sts).1,
       if (recordOutcome (selectViewer g) (drawParams g) st).isSuccess then
         (viewerRunFn (rngNext g) sts).2.1 + 1
       else (viewerRunFn (rngNext g) sts).2.1,
       if (recordOutcome (selectViewer g) (drawParams g) st).isSuccess then
         (viewerRunFn (rngNext g) sts).2.2
       else (viewerRunFn (rngNext g) sts).2.2 + 1)

/-- The function `viewerRunFn` produces a derivable Viewer run. -/
theorem viewerRunFn_sound (g : Nat) (sts : List Nat) :
    ViewerRun g sts (viewerRunFn g sts).1 (viewerRunFn g sts).2.1 (viewerRunFn g sts).2.2 := by
  induction sts generalizing g with
  | nil => exact ViewerRun.nil
  | cons st sts ih =>
    simp only [viewerRunFn]
    exact ViewerRun.cons (viewerStep_fn g st) (ih (rngNext g))

/-- A list matches its own leading segment. -/
theorem headMatch_refl (l : List Char) : headMatch l l = true := by
  induction l with
  | nil => rfl
  | cons c cs ih => simp [headMatch, ih]

/-- A pattern occurs in any list that ends with it. -/
theorem subMatch_append (a pat : List Char) : subMatch pat (a ++ pat) = true := by
  induction a with
  | nil =>
    cases pat with
    | nil => rfl
    | cons c cs => simpa [subMatch] using Or.inl (headMatch_refl (c :: cs))
  | cons c cs ih => simp [subMatch, ih]

/-- A string that ends with `pat` contains `pat`. -/
theorem strContains_append (pre pat : String) : strContains (pre ++ pat) pat = true := by
  show subMatch pat.data (pre ++ pat).data = true
  rw [String.data_append]
  exact subMatch_append pre.data pat.data

/-- Appending to a non-empty string stays non-empty. -/
theorem append_ne_empty_left (a b : String) (h : 0 < a.length) : a ++ b ≠ "" := by
  intro hc
  have hlen : (a ++ b).length = 0 := by rw [hc]; rfl
  rw [String.length_append] at hlen
  omega

/-- An event that does not append (any non-publish task, a failed
publish, or a publish whose body id is absent or falsy) leaves
`created_content_ids` unchanged. -/
theorem taskStateAfter_no_append (sess : Session) (t : UserTask) (p : Params) (r : Response)
    (h : appendsIdB ⟨t, p, r⟩ = false) :
    (taskStateAfter sess t r).created_content_ids = sess.created_content_ids := by
  cases t <;> try rfl
  simp only [taskStateAfter]
  split
  case isTrue hs =>
    cases hid : r.id with
    | none => rfl
    | some i =>
      by_cases hi : i = 0
      · simp [hi]
      · exfalso
        apply absurd h
        simp [appendsIdB, hs, hid, hi]
        decide
  case isFalse => rfl

/-- C1: in a Creator session, the `update_content` and `view_analytics`
tasks never issue an HTTP request before at least one successful
`publish_content` in the same session has appended an id to
`created_content_ids`; while that list is empty they skip entirely,
issuing no request. -/
theorem creator_update_analytics_never_before_publish
    (s0 : Session) (pre : List Event) (e : Event)
    (hinit : s0.created_content_ids = [])
    (hpre : ∀ e' ∈ pre, appendsIdB e' = false)
    (ht : e.task = UserTask.update_content ∨ e.task = UserTask.view_analytics) :
    taskRequests (runState s0 pre) e.task e.params = [] := by
  have hcreated : (runState s0 pre).created_content_ids = [] := by
    induction pre generalizing s0 with
    | nil => exact hinit
    | cons e' es ih =>
      refine ih (taskStateAfter s0 e'.task e'.resp) ?_ ?_
      · rw [taskStateAfter_no_append s0 e'.task e'.params e'.resp (hpre e' (by simp))]
        exact hinit
      · intro x hx
        exact hpre x (by simp [hx])
  rcases ht with h | h <;> rw [h] <;> simp [taskRequests, hcreated]

/-- C1 witness: after one failed publish, an `update_content` event
issues no request. -/
theorem creator_update_analytics_never_before_publish_witness :
    taskRequests
      (runState ⟨"test-token", []⟩ [⟨UserTask.publish_content, {}, ⟨500, none⟩⟩])
      UserTask.update_content ({} : Params) = [] :=
  creator_update_analytics_never_before_publish
    ⟨"test-token", []⟩ [⟨UserTask.publish_content, {}, ⟨500, none⟩⟩]
    ⟨UserTask.update_content, {}, ⟨200, none⟩⟩ rfl (by decide) (Or.inl rfl)

/-- C2: `login` returns the placeholder token `"test-token"` whenever
the status code is not 200, and on a 200 it returns the token the code
extracts from the response body (`response.json().get("token",
"test-token")`). -/
theorem login_placeholder_on_non_200 (r : LoginResponse) :
    (r.status ≠ 200 → login r = "test-token") ∧
    (r.status = 200 → login r = r.token.getD "test-token") := by
  constructor
  · intro h; simp [login, h]
  · intro h; simp [login, h]

/-- C2 witness: a 401 login yields the placeholder, a 200 login yields
the body's token. -/
theorem login_placeholder_on_non_200_witness :
    login ⟨401, some "real-token"⟩ = "test-token" ∧
    login ⟨200, some "real-token"⟩ = "real-token" :=
  ⟨(login_placeholder_on_non_200 ⟨401, some "real-token"⟩).1 (by decide),
   (login_placeholder_on_non_200 ⟨200, some "real-token"⟩).2 rfl⟩

/-- Every task leaves the existing `created_content_ids` in place, at
most appending to them. -/
theorem taskStateAfter_append_only (sess : Session) (t : UserTask) (r : Response) :
    ∃ tl, (taskStateAfter sess t r).created_content_ids = sess.created_content_ids ++ tl := by
  cases t <;> try exact ⟨[], (List.append_nil _).symm⟩
  simp only [taskStateAfter]
  split
  case isTrue =>
    cases r.id with
    | none => exact ⟨[], (List.append_nil _).symm⟩
    | some i =>
      by_cases hi : i = 0
      · exact ⟨[], by simp [hi]⟩
      · exact ⟨[i], by simp [hi]⟩
  case isFalse => exact ⟨[], (List.append_nil _).symm⟩

/-- C4 (amended): when `publish_content` records a success and the body
carries a present, truthy (nonzero) id, that id is appended to the end
of `created_content_ids`; and the list is append-only — every task
leaves the existing elements unchanged as a prefix. -/
theorem publish_appends_created_ids :
    (∀ (sess : Session) (r : Response) (i : Nat),
      r.status = 201 → r.id = some i → i ≠ 0 →
        (recordOutcome UserTask.publish_content {} r.status).isSuccess = true ∧
        (taskStateAfter sess UserTask.publish_content r).created_content_ids
          = sess.created_content_ids ++ [i]) ∧
    (∀ (sess : Session) (t : UserTask) (r : Response),
      ∃ tl, (taskStateAfter sess t r).created_content_ids = sess.created_content_ids ++ tl) := by
  constructor
  · intro sess r i hs hid hi
    constructor
    · simp [recordOutcome, hs, Outcome.isSuccess]
    · simp [taskStateAfter, hs, hid, hi]
  · exact taskStateAfter_append_only

/-- C4 witness: a 201 publish with body id 7 appends 7. -/
theorem publish_appends_created_ids_witness :
    (recordOutcome UserTask.publish_content {} 201).isSuccess = true ∧
    (taskStateAfter ⟨"test-token", [3]⟩ UserTask.publish_content ⟨201, some 7⟩).created_content_ids
      = [3] ++ [7] :=
  publish_appends_created_ids.1 ⟨"test-token", [3]⟩ ⟨201, some 7⟩ 7 rfl rfl (by decide)

/-- C4 counterexample: a 201 publish whose body id is 0 (falsy in the
source's `if content_id:` guard) records a success yet appends nothing,
so the id returned in the body is not appended. -/
theorem publish_success_zero_id_counterexample :
    (recordOutcome UserTask.publish_content {} 201).isSuccess = true ∧
    (taskStateAfter ⟨"test-token", []⟩ UserTask.publish_content ⟨201, some 0⟩).created_content_ids
      ≠ [] ++ [0] := by
  decide

/-- C10: `publish_content` records a success exactly when the status
code is 201; in particular a 200 response is recorded as a failure. -/
theorem publish_success_iff_201 :
    (∀ (p : Params) (s : Nat),
      (recordOutcome UserTask.publish_content p s).isSuccess = decide (s = 201)) ∧
    (∀ p : Params,
      recordOutcome UserTask.publish_content p 200 = Outcome.failure "Publish failed: 200") := by
  constructor
  · intro p s
    by_cases h : s = 201 <;> simp [recordOutcome, h, Outcome.isSuccess]
  · intro p
    rfl

/-- Prepending to a string of positive length keeps positive length. -/
theorem length_pos_left (a b : String) (h : 0 < a.length) : 0 < (a ++ b).length := by
  rw [String.length_append]; omega

/-- Any status outside a task's allow-list produces a failure whose
message is non-empty and contains the status code (every message in the
source is an f-string ending in `{response.status_code}`). -/
theorem recordOutcome_failure (t : UserTask) (p : Params) (s : Nat) (hs : s ∉ allowList t) :
    ∃ m, recordOutcome t p s = Outcome.failure m ∧ m ≠ "" ∧
      strContains m (toString s) = true := by
  cases t <;> simp only [allowList, List.mem_singleton, List.mem_cons, not_or] at hs
  case browse_content =>
    exact ⟨"Browse failed: " ++ toString s, by simp [recordOutcome, hs],
      append_ne_empty_left _ _ (by decide), strContains_append _ _⟩
  case view_content =>
    exact ⟨"View content " ++ toString p.content_id ++ " failed: " ++ toString s,
      by simp [recordOutcome, hs],
      append_ne_empty_left _ _ (length_pos_left _ _ (length_pos_left _ _ (by decide))),
      strContains_append _ _⟩
  case stream_content =>
    exact ⟨"Stream content " ++ toString p.content_id ++ " failed: " ++ toString s,
      by simp [recordOutcome, hs],
      append_ne_empty_left _ _ (length_pos_left _ _ (length_pos_left _ _ (by decide))),
      strContains_append _ _⟩
  case like_content =>
    exact ⟨"Like content failed: " ++ toString s, by simp [recordOutcome, hs.1, hs.2],
      append_ne_empty_left _ _ (by decide), strContains_append _ _⟩
  case search_content =>
    exact ⟨"Search failed: " ++ toString s, by simp [recordOutcome, hs],
      append_ne_empty_left _ _ (by decide), strContains_append _ _⟩
  case publish_content =>
    exact ⟨"Publish failed: " ++ toString s, by simp [recordOutcome, hs],
      append_ne_empty_left _ _ (by decide), strContains_append _ _⟩
  case update_content =>
    exact ⟨"Update failed: " ++ toString s, by simp [recordOutcome, hs],
      append_ne_empty_left _ _ (by decide), strContains_append _ _⟩
  case view_analytics =>
    exact ⟨"Analytics fetch failed: " ++ toString s, by simp [recordOutcome, hs],
      append_ne_empty_left _ _ (by decide), strContains_append _ _⟩
  case list_content =>
    exact ⟨"List content failed: " ++ toString s, by simp [recordOutcome, hs],
      append_ne_empty_left _ _ (by decide), strContains_append _ _⟩
  case view_subscriptions =>
    exact ⟨"View subscriptions failed: " ++ toString s, by simp [recordOutcome, hs],
      append_ne_empty_left _ _ (by decide), strContains_append _ _⟩
  case access_premium_content =>
    exact ⟨"Premium content access failed: " ++ toString s,
      by simp [recordOutcome, hs.1, hs.2],
      append_ne_empty_left _ _ (by decide), strContains_append _ _⟩
  case manage_payment_methods =>
    exact ⟨"Get payment methods failed: " ++ toString s, by simp [recordOutcome, hs],
      append_ne_empty_left _ _ (by decide), strContains_append _ _⟩
  case check_subscription_status =>
    exact ⟨"Check subscription status failed: " ++ toString s, by simp [recordOutcome, hs],
      append_ne_empty_left _ _ (by decide), strContains_append _ _⟩

/-- Any status outside a streaming-script task's allow-list produces a
failure whose message is non-empty and contains the status code. -/
theorem csRecordOutcome_failure (t : CSTask) (p : Params) (s : Nat) (hs : s ∉ csAllowList t) :
    ∃ m, csRecordOutcome t p s = Outcome.failure m ∧ m ≠ "" ∧
      strContains m (toString s) = true := by
  cases t <;> simp only [csAllowList, List.mem_singleton] at hs
  case stream_content =>
    exact ⟨"Failed to stream content " ++ toString p.content_id ++ ": " ++ toString s,
      by simp [csRecordOutcome, hs],
      append_ne_empty_left _ _ (length_pos_left _ _ (length_pos_left _ _ (by decide))),
      strContains_append _ _⟩
  case get_content_metadata =>
    exact ⟨"Failed to get metadata for " ++ toString p.content_id ++ ": " ++ toString s,
      by simp [csRecordOutcome, hs],
      append_ne_empty_left _ _ (length_pos_left _ _ (length_pos_left _ _ (by decide))),
      strContains_append _ _⟩

/-- C3 (amended): every response is recorded as a success exactly when
its status code lies in the task's allow-list; any other status is
recorded as a failure with a non-empty message; and every allow-list is
one of the sets 200, 200/201, 200/403, or — for `publish_content`
alone — the bare 201. -/
theorem success_iff_allow_list :
    (∀ (t : UserTask) (p : Params) (s : Nat),
      (recordOutcome t p s).isSuccess = true ↔ s ∈ allowList t) ∧
    (∀ (t : CSTask) (p : Params) (s : Nat),
      (csRecordOutcome t p s).isSuccess = true ↔ s ∈ csAllowList t) ∧
    (∀ (t : UserTask) (p : Params) (s : Nat), s ∉ allowList t →
      ∃ m, recordOutcome t p s = Outcome.failure m ∧ m ≠ "") ∧
    (∀ t : UserTask,
      allowList t = [200] ∨ allowList t = [200, 201] ∨
      allowList t = [200, 403] ∨ allowList t = [201]) ∧
    (∀ t : CSTask, csAllowList t = [200]) := by
  refine ⟨?_, ?_, ?_, ?_, ?_⟩
  · intro t p s
    cases t <;> simp only [recordOutcome, allowList] <;> split <;>
      simp_all [Outcome.isSuccess] <;> omega
  · intro t p s
    cases t <;> simp only [csRecordOutcome, csAllowList] <;> split <;>
      simp_all [Outcome.isSuccess]
  · intro t p s hs
    obtain ⟨m, h1, h2, _⟩ := recordOutcome_failure t p s hs
    exact ⟨m, h1, h2⟩
  · intro t
    cases t <;> simp [allowList]
  · intro t
    rfl

/-- C3 witness: a 200 browse response is a success, and 200 is in
browse's allow-list. -/
theorem success_iff_allow_list_witness :
    ∃ m, recordOutcome UserTask.publish_content {} 404 = Outcome.failure m ∧ m ≠ "" :=
  success_iff_allow_list.2.2.1 UserTask.publish_content {} 404 (by decide)

/-- C3 counterexample: `publish_content`'s allow-list is the bare
`[201]`, none of the three sets the claim allows, and the task records
a 200 response as a failure. -/
theorem publish_allow_list_counterexample :
    ¬(allowList UserTask.publish_content = [200] ∨
      allowList UserTask.publish_content = [200, 201] ∨
      allowList UserTask.publish_content = [200, 403]) ∧
    (recordOutcome UserTask.publish_content {} 200).isSuccess = false := by
  decide

/-- C5 (amended): every status code outside a task's allow-list is
recorded as a failure whose message is non-empty and contains the
status code; the messages name the failed operation but do not contain
the endpoint path. -/
theorem failure_message_nonempty_with_code :
    (∀ (t : UserTask) (p : Params) (s : Nat), s ∉ allowList t →
      ∃ m, recordOutcome t p s = Outcome.failure m ∧ m ≠ "" ∧
        strContains m (toString s) = true) ∧
    (∀ (t : CSTask) (p : Params) (s : Nat), s ∉ csAllowList t →
      ∃ m, csRecordOutcome t p s = Outcome.failure m ∧ m ≠ "" ∧
        strContains m (toString s) = true) :=
  ⟨recordOutcome_failure, csRecordOutcome_failure⟩

/-- C5 witness: a 500 on browse yields a non-empty failure message
containing "500". -/
theorem failure_message_nonempty_with_code_witness :
    ∃ m, recordOutcome UserTask.browse_content {} 500 = Outcome.failure m ∧ m ≠ "" ∧
      strContains m (toString 500) = true :=
  failure_message_nonempty_with_code.1 UserTask.browse_content {} 500 (by decide)

/-- C5 counterexample: the browse failure message for a 500 on
`/api/content/browse?page=1&limit=10` is `"Browse failed: 500"`, which
does not contain the endpoint. -/
theorem failure_message_lacks_endpoint_counterexample :
    recordOutcome UserTask.browse_content {} 500 = Outcome.failure "Browse failed: 500" ∧
    (taskRequests ⟨"test-token", []⟩ UserTask.browse_content {}).map Request.path
      = ["/api/content/browse?page=1&limit=10"] ∧
    strContains "Browse failed: 500" "/api/content/browse?page=1&limit=10" = false := by
  decide

/-- C6: every request a task issues carries the header
`Authorization: Bearer <token>` built from the session's token, the
token is never reassigned by any task, and every streaming-script
request carries the `Bearer test-token` header installed at
`on_start`. -/
theorem bearer_token_on_every_request :
    (∀ (sess : Session) (t : UserTask) (p : Params) (req : Request),
      req ∈ taskRequests sess t p →
        ("Authorization", "Bearer " ++ sess.auth_token) ∈ req.headers) ∧
    (∀ (sess : Session) (t : UserTask) (r : Response),
      (taskStateAfter sess t r).auth_token = sess.auth_token) ∧
    (∀ (t : CSTask) (p : Params),
      ("Authorization", "Bearer " ++ "test-token") ∈ (csRequest t p).headers) := by
  refine ⟨?_, ?_, ?_⟩
  · intro sess t p req h
    cases t <;> first
      | (simp only [taskRequests, List.mem_singleton] at h; subst h; simp)
      | (simp only [taskRequests] at h; split at h <;> simp_all)
  · intro sess t r
    cases t <;> try rfl
    simp only [taskStateAfter]
    split
    case isTrue =>
      cases r.id with
      | none => rfl
      | some i =>
        by_cases hi : i = 0 <;> simp [hi]
    case isFalse => rfl
  · intro t p
    cases t <;> simp [csRequest, csOnStartHeaders]

/-- C6 witness: the single `list_content` request of a session with
token "tok" carries the `Bearer tok` header. -/
theorem bearer_token_on_every_request_witness :
    ("Authorization", "Bearer " ++ "tok")
      ∈ (Request.mk "GET" "/api/creator/content"
          [("Authorization", "Bearer tok")]).headers :=
  bearer_token_on_every_request.1 ⟨"tok", []⟩ UserTask.list_content {}
    (Request.mk "GET" "/api/creator/content" [("Authorization", "Bearer tok")])
    (by decide)

/-- C7: a Viewer session run for exactly 10 task iterations is a
deterministic function of the seed and of the sequence of HTTP response
statuses: two runs from the same seed over the same responses produce
the same task sequence and the same pass/fail counts. -/
theorem viewer_session_deterministic
    (g : Nat) (sts : List Nat) (ts₁ ts₂ : List UserTask) (p₁ f₁ p₂ f₂ : Nat)
    (hlen : sts.length = 10)
    (h₁ : ViewerRun g sts ts₁ p₁ f₁) (h₂ : ViewerRun g sts ts₂ p₂ f₂) :
    ts₁ = ts₂ ∧ p₁ = p₂ ∧ f₁ = f₂ :=
  viewerRun_det h₁ h₂

/-- C7 witness: two 10-iteration runs from seed 1 over the same
response statuses coincide. -/
theorem viewer_session_deterministic_witness :
    (viewerRunFn 1 [200, 200, 404, 200, 201, 500, 200, 200, 403, 200]).1
      = (viewerRunFn 1 [200, 200, 404, 200, 201, 500, 200, 200, 403, 200]).1 ∧
    (viewerRunFn 1 [200, 200, 404, 200, 201, 500, 200, 200, 403, 200]).2.1
      = (viewerRunFn 1 [200, 200, 404, 200, 201, 500, 200, 200, 403, 200]).2.1 ∧
    (viewerRunFn 1 [200, 200, 404, 200, 201, 500, 200, 200, 403, 200]).2.2
      = (viewerRunFn 1 [200, 200, 404, 200, 201, 500, 200, 200, 403, 200]).2.2 :=
  viewer_session_deterministic 1 [200, 200, 404, 200, 201, 500, 200, 200, 403, 200]
    _ _ _ _ _ _ rfl
    (viewerRunFn_sound 1 [200, 200, 404, 200, 201, 500, 200, 200, 403, 200])
    (viewerRunFn_sound 1 [200, 200, 404, 200, 201, 500, 200, 200, 403, 200])

/-- C8: under the modelled weighted scheduler, each profile selects a
task with frequency exactly proportional to its declared weight over
one full period of uniform PRNG residues (Viewer 5:4:3:2:1, Creator
3:2:2:1, Subscriber 4:3:2:1, streaming 3:1), and each selection depends
only on the fresh draw's residue class, so iterations are independent
and with replacement. -/
theorem task_selection_matches_weights :
    (∀ t : UserTask,
      ((List.range 15).countP fun g => selectViewer g == t) = viewerWeight t) ∧
    (∀ t : UserTask,
      ((List.range 8).countP fun g => selectCreator g == t) = creatorWeight t) ∧
    (∀ t : UserTask,
      ((List.range 10).countP fun g => selectSubscriber g == t) = subscriberWeight t) ∧
    (∀ t : CSTask,
      ((List.range 4).countP fun g => selectCS g == t) = csWeight t) ∧
    (∀ g : Nat, selectViewer g = selectViewer (g % 15)) ∧
    (∀ g : Nat, selectCreator g = selectCreator (g % 8)) ∧
    (∀ g : Nat, selectSubscriber g = selectSubscriber (g % 10)) ∧
    (∀ g : Nat, selectCS g = selectCS (g % 4)) := by
  refine ⟨?_, ?_, ?_, ?_, ?_, ?_, ?_, ?_⟩
  · intro t; cases t <;> decide
  · intro t; cases t <;> decide
  · intro t; cases t <;> decide
  · intro t; cases t <;> decide
  · intro g; simp [selectViewer, Nat.mod_mod_of_dvd _ dvd_rfl]
  · intro g; simp [selectCreator, Nat.mod_mod_of_dvd _ dvd_rfl]
  · intro g; simp [selectSubscriber, Nat.mod_mod_of_dvd _ dvd_rfl]
  · intro g; simp [selectCS, Nat.mod_mod_of_dvd _ dvd_rfl]

/-- C9: each profile's declared wait bound is as in the source
(`between(1,5)`, `between(2,8)`, `between(1,4)`, `between(1,3)`), and
the sleep duration — the uniform unit draw stretched onto the bound —
always falls within it. -/
theorem sleep_within_declared_bounds :
    wait_time Profile.viewer = (1, 5) ∧ wait_time Profile.creator = (2, 8) ∧
    wait_time Profile.subscriber = (1, 4) ∧ wait_time Profile.streaming = (1, 3) ∧
    ∀ (pr : Profile) (u : ℚ), 0 ≤ u → u ≤ 1 →
      (wait_time pr).1 ≤ sleepDuration (wait_time pr).1 (wait_time pr).2 u ∧
      sleepDuration (wait_time pr).1 (wait_time pr).2 u ≤ (wait_time pr).2 := by
  refine ⟨rfl, rfl, rfl, rfl, ?_⟩
  intro pr u h0 h1
  cases pr <;> constructor <;>
    simp only [wait_time, between, sleepDuration] <;> nlinarith

/-- C9 witness: for the Viewer profile and unit draw one half, the
sleep duration lies within the declared bound. -/
theorem sleep_within_declared_bounds_witness :
    (1 : ℚ) ≤ sleepDuration 1 5 (1 / 2) ∧ sleepDuration 1 5 (1 / 2) ≤ 5 :=
  sleep_within_declared_bounds.2.2.2.2 Profile.viewer (1 / 2) (by norm_num) (by norm_num)
